import Mathlib

/-!
Shallow embedding of the RoleLobby coordinator from `src/app.py`
(Flask-SocketIO lobby for a two-player hacker/defender session).

State is the pair of module-level registries:
  * `CONNECTED : dict sid -> {"role": None|"hacker"|"defender"}`
    (insertion-ordered, embedded as an association list), and
  * `ROLE_OWNER : {"hacker": sid|None, "defender": sid|None}`
    (a fixed two-key dict, embedded as two `Option` fields).
Each Socket.IO handler becomes a pure function
`LobbyState -> inputs -> LobbyState × List Emit`, where an `Emit` records
the event together with its recipients: `emit(...)` in a handler sends to
the requesting socket only, `socketio.emit(...)` broadcasts to all.
-/

namespace RoleLobby

/-- Socket ids, assigned by the transport layer (opaque strings). -/
abbrev ConnId := String

/-- Python truthiness of an optional sid, as used by `if owner` (line 131)
and `True if ROLE_OWNER[...] else False` (lines 27-28): `None` and the
empty string are falsy, any other string is truthy. -/
def pyTruthy : Option String → Bool
  | none => false
  | some s => !(s == "")

/-- The in-memory lobby state: `CONNECTED` (line 12) as an insertion-ordered
association list from sid to the stored `"role"` value, and the two entries
of `ROLE_OWNER` (line 14). -/
structure LobbyState where
  connected : List (ConnId × Option String)
  hackerOwner : Option ConnId
  defenderOwner : Option ConnId
deriving DecidableEq, Repr

/-- Initial state: no connections, both roles free (lines 12-14). -/
def initState : LobbyState := ⟨[], none, none⟩

/-- `MAX_PLAYERS = 2` (line 15). -/
def MAX_PLAYERS : Nat := 2

/-- `CONNECTED[sid] = v`: replace the value in place if the key is present,
otherwise append at the end (Python dict assignment keeps insertion order). -/
def assocSet : List (ConnId × Option String) → ConnId → Option String →
    List (ConnId × Option String)
  | [], k, v => [(k, v)]
  | (k', v') :: rest, k, v =>
      if k' = k then (k, v) :: rest else (k', v') :: assocSet rest k v

/-- `CONNECTED[sid]["role"] = v`: update the stored role of an existing key.
In the source this indexing presupposes `sid ∈ CONNECTED` (the handler is
only invoked for connected sockets); on an absent key this embedding leaves
the list unchanged. -/
def assocUpdate : List (ConnId × Option String) → ConnId → Option String →
    List (ConnId × Option String)
  | [], _, _ => []
  | (k', v') :: rest, k, v =>
      if k' = k then (k, v) :: rest else (k', v') :: assocUpdate rest k v

/-- `CONNECTED.pop(sid, None)` (line 104): remove the key if present. -/
def assocPop (l : List (ConnId × Option String)) (k : ConnId) :
    List (ConnId × Option String) :=
  l.filter (fun p => !(p.1 == k))

/-- Dictionary lookup `CONNECTED.get(sid)`: `some v` when the key is stored
with value `v`, `none` when absent. -/
def assocGet : List (ConnId × Option String) → ConnId → Option (Option String)
  | [], _ => none
  | (k', v') :: rest, k => if k' = k then some v' else assocGet rest k

/-- The set (list) of currently connected sids, i.e. the keys of `CONNECTED`. -/
def connectedIds (st : LobbyState) : List ConnId :=
  st.connected.map Prod.fst

/-- `len(CONNECTED)` (lines 20, 117): the authoritative player count. -/
def playerCount (st : LobbyState) : Nat := st.connected.length

/-- The `owners` dictionary computed by `broadcast_roles` (lines 26-29):
`(hackerTaken, defenderTaken)` via Python truthiness of the owner entries. -/
def rolesSnapshot (st : LobbyState) : Bool × Bool :=
  (pyTruthy st.hackerOwner, pyTruthy st.defenderOwner)

/-- `all_roles_taken` (lines 33-34): both owners are not `None`. -/
def all_roles_taken (st : LobbyState) : Bool :=
  st.hackerOwner.isSome && st.defenderOwner.isSome

/-- The error strings emitted with `choose_role_failed`. -/
inductive ChooseErr
  | waiting_for_players
  | invalid_role
  | role_taken
  | already_owns_other_role
deriving DecidableEq, Repr

/-- The events the handlers hand to the transport layer. -/
inductive Event
  | player_count (count maxPlayers : Nat)
  | roles_update (hacker defender : Bool)
  | roles_ready (ok : Bool)
  | choose_role_success (role : String)
  | choose_role_failed (error : ChooseErr)
  | role_released (role : String)
deriving DecidableEq, Repr

/-- Who receives an emitted event: `socketio.emit` broadcasts to all,
`emit` inside a handler answers the requesting socket only. -/
inductive Recipient
  | all
  | requester (sid : ConnId)
deriving DecidableEq, Repr

/-- One emitted event, paired with its recipients. -/
abbrev Emit := Recipient × Event

/-- `broadcast_player_count` (lines 19-21). -/
def broadcast_player_count (st : LobbyState) : List Emit :=
  [(Recipient.all, Event.player_count (playerCount st) MAX_PLAYERS)]

/-- `broadcast_roles` (lines 24-30). -/
def broadcast_roles (st : LobbyState) : List Emit :=
  [(Recipient.all,
    Event.roles_update (rolesSnapshot st).1 (rolesSnapshot st).2)]

/-- `ROLE_OWNER.get(r)` (lines 130, 165): the two fixed keys, `none` for
any other string. -/
def roleOwnerGet (st : LobbyState) (r : String) : Option ConnId :=
  if r = "hacker" then st.hackerOwner
  else if r = "defender" then st.defenderOwner
  else none

/-- `ROLE_OWNER[r] = v` for a valid role key; unchanged for any other string
(the source only assigns with `r` already validated). -/
def roleOwnerSet (st : LobbyState) (r : String) (v : Option ConnId) :
    LobbyState :=
  if r = "hacker" then { st with hackerOwner := v }
  else if r = "defender" then { st with defenderOwner := v }
  else st

/-- `handle_connect` (lines 87-93): store `{"role": None}` under the sid,
then broadcast the player count and the role snapshot. -/
def handle_connect (st : LobbyState) (sid : ConnId) : LobbyState × List Emit :=
  let st' : LobbyState := { st with connected := assocSet st.connected sid none }
  (st', broadcast_player_count st' ++ broadcast_roles st')

/-- `handle_disconnect` (lines 96-106): clear every `ROLE_OWNER` entry equal
to the sid, pop the sid from `CONNECTED`, then broadcast count and roles. -/
def handle_disconnect (st : LobbyState) (sid : ConnId) :
    LobbyState × List Emit :=
  let st1 : LobbyState :=
    { st with
      hackerOwner := if st.hackerOwner = some sid then none else st.hackerOwner
      defenderOwner :=
        if st.defenderOwner = some sid then none else st.defenderOwner }
  let st' : LobbyState := { st1 with connected := assocPop st1.connected sid }
  (st', broadcast_player_count st' ++ broadcast_roles st')

/-- The JSON payload of `choose_role` / `release_role`: a dict that may or
may not carry a `"role"` key. -/
structure Payload where
  role : Option String
deriving DecidableEq, Repr

/-- `(data or {}).get("role")` (lines 116, 164): `none` when the payload is
`None`, is empty, or lacks the `"role"` key. -/
def extractRole : Option Payload → Option String
  | none => none
  | some p => p.role

/-- The `for r, o in ROLE_OWNER.items()` loop of `handle_choose_role`
(lines 136-140): the first role different from `desired` whose owner is the
sid, iterating in the dict's insertion order (hacker, then defender). -/
def otherOwnedRole (st : LobbyState) (sid : ConnId) (desired : String) :
    Option String :=
  if st.hackerOwner = some sid ∧ ¬ "hacker" = desired then some "hacker"
  else if st.defenderOwner = some sid ∧ ¬ "defender" = desired then
    some "defender"
  else none

/-- The state after the success branch of `handle_choose_role`
(lines 146-147): `ROLE_OWNER[desired] = sid; CONNECTED[sid]["role"] = desired`. -/
def chooseSuccessState (st : LobbyState) (sid : ConnId) (d : String) :
    LobbyState :=
  let st1 := roleOwnerSet st d (some sid)
  { st1 with connected := assocUpdate st1.connected sid (some d) }

/-- The events of the success branch of `handle_choose_role` (lines 150-157):
success to the requester, the roles broadcast, then `roles_ready` to all when
both roles are now taken. -/
def chooseSuccessEvents (st' : LobbyState) (sid : ConnId) (d : String) :
    List Emit :=
  [(Recipient.requester sid, Event.choose_role_success d)] ++
    broadcast_roles st' ++
    (if all_roles_taken st' then [(Recipient.all, Event.roles_ready true)]
     else [])

/-- `handle_choose_role` (lines 109-157). -/
def handle_choose_role (st : LobbyState) (sid : ConnId)
    (data : Option Payload) : LobbyState × List Emit :=
  let desired := extractRole data
  if playerCount st < MAX_PLAYERS then
    (st, [(Recipient.requester sid,
      Event.choose_role_failed ChooseErr.waiting_for_players)])
  else if ¬ (desired = some "hacker" ∨ desired = some "defender") then
    (st, [(Recipient.requester sid,
      Event.choose_role_failed ChooseErr.invalid_role)])
  else
    let d := desired.getD ""
    let owner := roleOwnerGet st d
    if pyTruthy owner ∧ ¬ owner = some sid then
      (st, [(Recipient.requester sid,
        Event.choose_role_failed ChooseErr.role_taken)])
    else if (otherOwnedRole st sid d).isSome then
      (st, [(Recipient.requester sid,
        Event.choose_role_failed ChooseErr.already_owns_other_role)])
    else
      (chooseSuccessState st sid d,
       chooseSuccessEvents (chooseSuccessState st sid d) sid d)

/-- `handle_release_role` (lines 160-169): only when the role string is valid
and the sid owns it, clear the owner entry and the connection's role field,
answer the requester with `role_released`, and broadcast the roles; otherwise
do nothing and emit nothing. -/
def handle_release_role (st : LobbyState) (sid : ConnId)
    (data : Option Payload) : LobbyState × List Emit :=
  let role := extractRole data
  if (role = some "hacker" ∨ role = some "defender") ∧
      roleOwnerGet st (role.getD "") = some sid then
    let r := role.getD ""
    let st1 := roleOwnerSet st r none
    let st' : LobbyState :=
      { st1 with connected := assocUpdate st1.connected sid none }
    (st', [(Recipient.requester sid, Event.role_released r)] ++
      broadcast_roles st')
  else
    (st, [])

/-- The two role kinds of the data model. -/
inductive RoleKind
  | hacker
  | defender
deriving DecidableEq, Repr

/-- `ROLE_OWNER` read at a role kind. -/
def roleOwner (st : LobbyState) : RoleKind → Option ConnId
  | RoleKind.hacker => st.hackerOwner
  | RoleKind.defender => st.defenderOwner

/-- The lobby states reachable from the initial state by the four
transport-invoked operations. `choose_role` and `release_role` events are
only delivered for currently connected sockets, and the transport never
signals `connect` for an already-present sid (spec section 4.1). -/
inductive Reachable : LobbyState → Prop
  | init : Reachable initState
  | connect (st : LobbyState) (sid : ConnId) :
      Reachable st → sid ∉ connectedIds st →
      Reachable (handle_connect st sid).1
  | disconnect (st : LobbyState) (sid : ConnId) :
      Reachable st → Reachable (handle_disconnect st sid).1
  | choose (st : LobbyState) (sid : ConnId) (data : Option Payload) :
      Reachable st → sid ∈ connectedIds st →
      Reachable (handle_choose_role st sid data).1
  | release (st : LobbyState) (sid : ConnId) (data : Option Payload) :
      Reachable st → sid ∈ connectedIds st →
      Reachable (handle_release_role st sid data).1

/-- The conjunction of the four preconditions of `handle_choose_role`, in
the source's own terms: enough players, valid role string, role not held by
a different (truthy) sid, and no other role already owned by the sid. -/
def ChooseOk (st : LobbyState) (sid : ConnId) (desired : Option String) :
    Prop :=
  ¬ playerCount st < MAX_PLAYERS ∧
  (desired = some "hacker" ∨ desired = some "defender") ∧
  ¬ (pyTruthy (roleOwnerGet st (desired.getD "")) ∧
      ¬ roleOwnerGet st (desired.getD "") = some sid) ∧
  otherOwnedRole st sid (desired.getD "") = none

instance (st : LobbyState) (sid : ConnId) (desired : Option String) :
    Decidable (ChooseOk st sid desired) := by
  unfold ChooseOk
  infer_instance

/-- The guard of `handle_release_role` (line 165) in the source's terms:
the payload's role is one of the two valid keys and its current owner is
the requesting sid. -/
def ReleaseOk (st : LobbyState) (sid : ConnId) (role : Option String) :
    Prop :=
  (role = some "hacker" ∨ role = some "defender") ∧
  roleOwnerGet st (role.getD "") = some sid

instance (st : LobbyState) (sid : ConnId) (role : Option String) :
    Decidable (ReleaseOk st sid role) := by
  unfold ReleaseOk
  infer_instance

/-- The inductive invariant: no sid owns both roles, and every role owner
is a currently connected sid. -/
def GoodState (st : LobbyState) : Prop :=
  (∀ c, st.hackerOwner = some c → ¬ st.defenderOwner = some c) ∧
  (∀ c, st.hackerOwner = some c → c ∈ connectedIds st) ∧
  (∀ c, st.defenderOwner = some c → c ∈ connectedIds st)

/-- The precondition order of `chooseRole` exactly as the spec words it
(section 4.1, first failure wins): 1. fewer than two connections gives
WaitingForPlayers; 2. a desired role outside the two valid ones gives
InvalidRole; 3. a role whose owner is some other connId gives RoleTaken;
4. already owning the other role gives AlreadyOwnsOtherRole; otherwise no
failure. Written from the spec's wording, to be compared against the source
handler `handle_choose_role`. -/
def specFirstFailure (st : LobbyState) (sid : ConnId)
    (desired : Option String) : Option ChooseErr :=
  if playerCount st < 2 then some ChooseErr.waiting_for_players
  else if ¬ (desired = some "hacker" ∨ desired = some "defender") then
    some ChooseErr.invalid_role
  else if (roleOwnerGet st (desired.getD "")).isSome ∧
      ¬ roleOwnerGet st (desired.getD "") = some sid then
    some ChooseErr.role_taken
  else if (st.hackerOwner = some sid ∧ ¬ desired = some "hacker") ∨
      (st.defenderOwner = some sid ∧ ¬ desired = some "defender") then
    some ChooseErr.already_owns_other_role
  else none

/-- The lobby after sid `A` connects to the empty lobby. -/
def lobbyA : LobbyState := (handle_connect initState "A").1

/-- The lobby after sids `A` and `B` connect, in that order. -/
def lobbyAB : LobbyState := (handle_connect lobbyA "B").1

/-- The lobby after `A` and `B` connect and `A` claims the hacker role. -/
def lobbyAhacker : LobbyState :=
  (handle_choose_role lobbyAB "A" (some ⟨some "hacker"⟩)).1

/-! ### Association-list lemmas -/

lemma mem_keys_assocSet {l : List (ConnId × Option String)} {c k : ConnId}
    (v : Option String) (h : c ∈ l.map Prod.fst) :
    c ∈ (assocSet l k v).map Prod.fst := by
  induction l with
  | nil => simp at h
  | cons p rest ih =>
    obtain ⟨k', v'⟩ := p
    by_cases hk : k' = k
    · subst hk
      simpa [assocSet] using h
    · simp only [List.map_cons, List.mem_cons] at h
      rcases h with h | h
      · simp [assocSet, hk, h]
      · simp [assocSet, hk, ih h]

lemma mem_keys_assocSet_self (l : List (ConnId × Option String))
    (k : ConnId) (v : Option String) :
    k ∈ (assocSet l k v).map Prod.fst := by
  induction l with
  | nil => simp [assocSet]
  | cons p rest ih =>
    obtain ⟨k', v'⟩ := p
    by_cases hk : k' = k <;> simp [assocSet, hk, ih]

lemma keys_assocUpdate (l : List (ConnId × Option String)) (k : ConnId)
    (v : Option String) :
    (assocUpdate l k v).map Prod.fst = l.map Prod.fst := by
  induction l with
  | nil => rfl
  | cons p rest ih =>
    obtain ⟨k', v'⟩ := p
    by_cases hk : k' = k
    · subst hk; simp [assocUpdate]
    · simp [assocUpdate, hk, ih]

lemma length_assocUpdate (l : List (ConnId × Option String)) (k : ConnId)
    (v : Option String) :
    (assocUpdate l k v).length = l.length := by
  have h := congrArg List.length (keys_assocUpdate l k v)
  simpa using h

lemma mem_keys_assocPop {l : List (ConnId × Option String)} {c k : ConnId}
    (h : c ∈ l.map Prod.fst) (hne : c ≠ k) :
    c ∈ (assocPop l k).map Prod.fst := by
  simp only [List.mem_map] at h
  obtain ⟨p, hp, rfl⟩ := h
  simp only [assocPop, List.mem_map]
  refine ⟨p, ?_, rfl⟩
  simp [List.mem_filter, hp, hne]

lemma not_mem_keys_assocPop (l : List (ConnId × Option String)) (k : ConnId) :
    k ∉ (assocPop l k).map Prod.fst := by
  simp only [assocPop, List.mem_map, List.mem_filter]
  rintro ⟨p, ⟨hp, hf⟩, rfl⟩
  simp at hf

lemma assocSet_of_not_mem {l : List (ConnId × Option String)} {k : ConnId}
    (v : Option String) (h : k ∉ l.map Prod.fst) :
    assocSet l k v = l ++ [(k, v)] := by
  induction l with
  | nil => rfl
  | cons p rest ih =>
    obtain ⟨k', v'⟩ := p
    simp only [List.map_cons, List.mem_cons] at h
    push_neg at h
    simp [assocSet, Ne.symm h.1, ih h.2]

lemma assocPop_of_not_mem {l : List (ConnId × Option String)} {k : ConnId}
    (h : k ∉ l.map Prod.fst) : assocPop l k = l := by
  induction l with
  | nil => rfl
  | cons p rest ih =>
    simp only [List.map_cons, List.mem_cons] at h
    push_neg at h
    simp only [assocPop, List.filter_cons] at ih ⊢
    have hp : (!(p.1 == k)) = true := by
      simpa using Ne.symm h.1
    rw [if_pos hp, ih h.2]

lemma assocPop_append (l1 l2 : List (ConnId × Option String)) (k : ConnId) :
    assocPop (l1 ++ l2) k = assocPop l1 k ++ assocPop l2 k := by
  simp [assocPop, List.filter_append]

lemma assocUpdate_idem (l : List (ConnId × Option String)) (k : ConnId)
    (v : Option String) :
    assocUpdate (assocUpdate l k v) k v = assocUpdate l k v := by
  induction l with
  | nil => rfl
  | cons p rest ih =>
    obtain ⟨k', v'⟩ := p
    by_cases hk : k' = k
    · subst hk; simp [assocUpdate]
    · simp [assocUpdate, hk, ih]

lemma assocGet_assocUpdate_self {l : List (ConnId × Option String)}
    {k : ConnId} (v : Option String) (h : k ∈ l.map Prod.fst) :
    assocGet (assocUpdate l k v) k = some v := by
  induction l with
  | nil => simp at h
  | cons p rest ih =>
    obtain ⟨k', v'⟩ := p
    by_cases hk : k' = k
    · subst hk; simp [assocUpdate, assocGet]
    · simp only [List.map_cons, List.mem_cons] at h
      rcases h with h | h
      · exact absurd h.symm hk
      · simp [assocUpdate, assocGet, hk, ih h]

/-! ### Branch characterizations of `handle_choose_role` -/

lemma choose_eq_waiting (st : LobbyState) (sid : ConnId) (data : Option Payload)
    (h : playerCount st < MAX_PLAYERS) :
    handle_choose_role st sid data =
      (st, [(Recipient.requester sid,
        Event.choose_role_failed ChooseErr.waiting_for_players)]) := by
  simp [handle_choose_role, h]

lemma choose_eq_invalid (st : LobbyState) (sid : ConnId) (data : Option Payload)
    (h1 : ¬ playerCount st < MAX_PLAYERS)
    (h2 : ¬ (extractRole data = some "hacker" ∨
        extractRole data = some "defender")) :
    handle_choose_role st sid data =
      (st, [(Recipient.requester sid,
        Event.choose_role_failed ChooseErr.invalid_role)]) := by
  simp [handle_choose_role, h1, h2]

lemma choose_eq_taken (st : LobbyState) (sid : ConnId) (data : Option Payload)
    (d : String) (hd : extractRole data = some d)
    (h1 : ¬ playerCount st < MAX_PLAYERS)
    (h2 : d = "hacker" ∨ d = "defender")
    (h3 : pyTruthy (roleOwnerGet st d) ∧ ¬ roleOwnerGet st d = some sid) :
    handle_choose_role st sid data =
      (st, [(Recipient.requester sid,
        Event.choose_role_failed ChooseErr.role_taken)]) := by
  obtain ⟨h3a, h3b⟩ := h3
  rcases h2 with rfl | rfl <;>
    simp [handle_choose_role, h1, hd, h3a, h3b]

lemma choose_eq_other (st : LobbyState) (sid : ConnId) (data : Option Payload)
    (d : String) (hd : extractRole data = some d)
    (h1 : ¬ playerCount st < MAX_PLAYERS)
    (h2 : d = "hacker" ∨ d = "defender")
    (h3 : ¬ (pyTruthy (roleOwnerGet st d) ∧ ¬ roleOwnerGet st d = some sid))
    (h4 : (otherOwnedRole st sid d).isSome) :
    handle_choose_role st sid data =
      (st, [(Recipient.requester sid,
        Event.choose_role_failed ChooseErr.already_owns_other_role)]) := by
  rcases h2 with rfl | rfl <;>
    simp [handle_choose_role, h1, hd, h3, h4]

lemma choose_eq_success (st : LobbyState) (sid : ConnId) (data : Option Payload)
    (d : String) (hd : extractRole data = some d)
    (hok : ChooseOk st sid (extractRole data)) :
    handle_choose_role st sid data =
      (chooseSuccessState st sid d,
       chooseSuccessEvents (chooseSuccessState st sid d) sid d) := by
  obtain ⟨h1, h2, h3, h4⟩ := hok
  rw [hd] at h2 h3 h4
  simp only [Option.getD_some] at h3 h4
  have h2' : d = "hacker" ∨ d = "defender" := by simpa using h2
  rcases h2' with rfl | rfl <;>
    simp [handle_choose_role, h1, hd, h3, h4]

/-! ### Evaluation lemmas for the fixed role keys -/

lemma roleOwnerSet_hacker (st : LobbyState) (v : Option ConnId) :
    roleOwnerSet st "hacker" v = { st with hackerOwner := v } := by
  rw [roleOwnerSet, if_pos rfl]

lemma roleOwnerSet_defender (st : LobbyState) (v : Option ConnId) :
    roleOwnerSet st "defender" v = { st with defenderOwner := v } := by
  rw [roleOwnerSet, if_neg (by decide), if_pos rfl]

lemma roleOwnerGet_hacker (st : LobbyState) :
    roleOwnerGet st "hacker" = st.hackerOwner := by
  rw [roleOwnerGet, if_pos rfl]

lemma roleOwnerGet_defender (st : LobbyState) :
    roleOwnerGet st "defender" = st.defenderOwner := by
  rw [roleOwnerGet, if_neg (by decide), if_pos rfl]

lemma chooseSuccessState_hacker (st : LobbyState) (sid : ConnId) :
    chooseSuccessState st sid "hacker" =
      { connected := assocUpdate st.connected sid (some "hacker"),
        hackerOwner := some sid,
        defenderOwner := st.defenderOwner } := by
  simp [chooseSuccessState, roleOwnerSet_hacker]

lemma chooseSuccessState_defender (st : LobbyState) (sid : ConnId) :
    chooseSuccessState st sid "defender" =
      { connected := assocUpdate st.connected sid (some "defender"),
        hackerOwner := st.hackerOwner,
        defenderOwner := some sid } := by
  simp [chooseSuccessState, roleOwnerSet_defender]

lemma otherOwnedRole_eq_none_iff (st : LobbyState) (sid : ConnId)
    (d : String) :
    otherOwnedRole st sid d = none ↔
      ¬ (st.hackerOwner = some sid ∧ ¬ "hacker" = d) ∧
      ¬ (st.defenderOwner = some sid ∧ ¬ "defender" = d) := by
  unfold otherOwnedRole
  split_ifs with hA hB
  · simp [hA]
  · simp [hA, hB]
  · simp [hA, hB]

/-! ### Branch characterizations of `handle_release_role` -/

lemma release_eq_noop (st : LobbyState) (sid : ConnId) (data : Option Payload)
    (h : ¬ ReleaseOk st sid (extractRole data)) :
    handle_release_role st sid data = (st, []) := by
  unfold ReleaseOk at h
  simp only [handle_release_role]
  rw [if_neg h]

lemma release_eq_success (st : LobbyState) (sid : ConnId)
    (data : Option Payload) (r : String) (hr : extractRole data = some r)
    (hv : r = "hacker" ∨ r = "defender")
    (ho : roleOwnerGet st r = some sid) :
    handle_release_role st sid data =
      ({ roleOwnerSet st r none with
          connected := assocUpdate st.connected sid none },
       [(Recipient.requester sid, Event.role_released r)] ++
         broadcast_roles
           { roleOwnerSet st r none with
             connected := assocUpdate st.connected sid none }) := by
  rcases hv with rfl | rfl <;>
    simp [handle_release_role, hr, ho, roleOwnerSet_hacker,
      roleOwnerSet_defender]

/-! ### The inductive invariant of reachable states -/

lemma goodState_init : GoodState initState := by
  refine ⟨?_, ?_, ?_⟩ <;> intro c h <;> simp [initState] at h

lemma connect_fst (st : LobbyState) (sid : ConnId) :
    (handle_connect st sid).1 =
      { st with connected := assocSet st.connected sid none } := rfl

lemma disconnect_fst (st : LobbyState) (sid : ConnId) :
    (handle_disconnect st sid).1 =
      { connected := assocPop st.connected sid,
        hackerOwner :=
          if st.hackerOwner = some sid then none else st.hackerOwner,
        defenderOwner :=
          if st.defenderOwner = some sid then none else st.defenderOwner } :=
  rfl

lemma goodState_connect (st : LobbyState) (sid : ConnId)
    (hg : GoodState st) : GoodState (handle_connect st sid).1 := by
  obtain ⟨hb, hh, hdf⟩ := hg
  rw [connect_fst]
  refine ⟨fun c h => hb c h, fun c h => ?_, fun c h => ?_⟩
  · exact mem_keys_assocSet none (hh c h)
  · exact mem_keys_assocSet none (hdf c h)

lemma goodState_disconnect (st : LobbyState) (sid : ConnId)
    (hg : GoodState st) : GoodState (handle_disconnect st sid).1 := by
  obtain ⟨hb, hh, hdf⟩ := hg
  rw [disconnect_fst]
  refine ⟨fun c h => ?_, fun c h => ?_, fun c h => ?_⟩ <;>
    dsimp only at h ⊢
  · by_cases h1 : st.hackerOwner = some sid
    · rw [if_pos h1] at h
      exact absurd h (by simp)
    · rw [if_neg h1] at h
      by_cases h2 : st.defenderOwner = some sid
      · rw [if_pos h2]
        simp
      · rw [if_neg h2]
        exact hb c h
  · by_cases h1 : st.hackerOwner = some sid
    · rw [if_pos h1] at h
      exact absurd h (by simp)
    · rw [if_neg h1] at h
      have hc : c ≠ sid := by
        intro hcs
        exact h1 (hcs ▸ h)
      exact mem_keys_assocPop (hh c h) hc
  · by_cases h1 : st.defenderOwner = some sid
    · rw [if_pos h1] at h
      exact absurd h (by simp)
    · rw [if_neg h1] at h
      have hc : c ≠ sid := by
        intro hcs
        exact h1 (hcs ▸ h)
      exact mem_keys_assocPop (hdf c h) hc

lemma choose_fst_cases (st : LobbyState) (sid : ConnId)
    (data : Option Payload) :
    (handle_choose_role st sid data).1 = st ∨
    ∃ d, extractRole data = some d ∧ (d = "hacker" ∨ d = "defender") ∧
      ChooseOk st sid (extractRole data) ∧
      (handle_choose_role st sid data).1 = chooseSuccessState st sid d := by
  by_cases h1 : playerCount st < MAX_PLAYERS
  · left
    rw [choose_eq_waiting st sid data h1]
  by_cases h2 : extractRole data = some "hacker" ∨
      extractRole data = some "defender"
  swap
  · left
    rw [choose_eq_invalid st sid data h1 h2]
  obtain ⟨d, hd, hd2⟩ : ∃ d, extractRole data = some d ∧
      (d = "hacker" ∨ d = "defender") := by
    rcases h2 with h | h
    · exact ⟨"hacker", h, Or.inl rfl⟩
    · exact ⟨"defender", h, Or.inr rfl⟩
  by_cases h3 : pyTruthy (roleOwnerGet st d) ∧ ¬ roleOwnerGet st d = some sid
  · left
    rw [choose_eq_taken st sid data d hd h1 hd2 h3]
  by_cases h4 : (otherOwnedRole st sid d).isSome
  · left
    rw [choose_eq_other st sid data d hd h1 hd2 h3 h4]
  · right
    have h4' : otherOwnedRole st sid d = none :=
      Option.not_isSome_iff_eq_none.mp h4
    have hok : ChooseOk st sid (extractRole data) := by
      refine ⟨h1, h2, ?_, ?_⟩ <;> rw [hd]
      · simpa using h3
      · simpa using h4'
    exact ⟨d, hd, hd2, hok, by rw [choose_eq_success st sid data d hd hok]⟩

lemma goodState_choose (st : LobbyState) (sid : ConnId)
    (data : Option Payload) (hmem : sid ∈ connectedIds st)
    (hg : GoodState st) : GoodState (handle_choose_role st sid data).1 := by
  rcases choose_fst_cases st sid data with h | ⟨d, hd, hd2, hok, h⟩
  · rw [h]
    exact hg
  obtain ⟨hb, hh, hdf⟩ := hg
  obtain ⟨hO1, hO2⟩ :=
    (otherOwnedRole_eq_none_iff st sid d).mp (by
      have := hok.2.2.2
      rwa [hd] at this)
  rw [h]
  rcases hd2 with rfl | rfl
  · rw [chooseSuccessState_hacker]
    have hdef : ¬ st.defenderOwner = some sid := by
      intro hcontra
      exact hO2 ⟨hcontra, by decide⟩
    refine ⟨fun c hc => ?_, fun c hc => ?_, fun c hc => ?_⟩ <;>
      dsimp only at hc ⊢
    · obtain rfl : sid = c := by simpa using hc
      exact hdef
    · obtain rfl : sid = c := by simpa using hc
      simpa [connectedIds, keys_assocUpdate] using hmem
    · have := hdf c hc
      simpa [connectedIds, keys_assocUpdate] using this
  · rw [chooseSuccessState_defender]
    have hhk : ¬ st.hackerOwner = some sid := by
      intro hcontra
      exact hO1 ⟨hcontra, by decide⟩
    refine ⟨fun c hc => ?_, fun c hc => ?_, fun c hc => ?_⟩ <;>
      dsimp only at hc ⊢
    · intro hc2
      obtain rfl : sid = c := by simpa using hc2
      exact hhk hc
    · have := hh c hc
      simpa [connectedIds, keys_assocUpdate] using this
    · obtain rfl : sid = c := by simpa using hc
      simpa [connectedIds, keys_assocUpdate] using hmem

lemma goodState_release (st : LobbyState) (sid : ConnId)
    (data : Option Payload) (hg : GoodState st) :
    GoodState (handle_release_role st sid data).1 := by
  by_cases hok : ReleaseOk st sid (extractRole data)
  swap
  · rw [release_eq_noop st sid data hok]
    exact hg
  obtain ⟨hv, ho⟩ := hok
  obtain ⟨r, hr, hv⟩ : ∃ r, extractRole data = some r ∧
      (r = "hacker" ∨ r = "defender") := by
    rcases hv with h | h
    · exact ⟨"hacker", h, Or.inl rfl⟩
    · exact ⟨"defender", h, Or.inr rfl⟩
  rw [hr] at ho
  simp only [Option.getD_some] at ho
  obtain ⟨hb, hh, hdf⟩ := hg
  rw [show (handle_release_role st sid data).1 =
      { roleOwnerSet st r none with
        connected := assocUpdate st.connected sid none } from by
    rw [release_eq_success st sid data r hr hv ho]]
  rcases hv with rfl | rfl
  · rw [roleOwnerSet_hacker]
    refine ⟨fun c hc => ?_, fun c hc => ?_, fun c hc => ?_⟩ <;>
      dsimp only at hc ⊢
    · simp at hc
    · simp at hc
    · have := hdf c hc
      simpa [connectedIds, keys_assocUpdate] using this
  · rw [roleOwnerSet_defender]
    refine ⟨fun c hc => ?_, fun c hc => ?_, fun c hc => ?_⟩ <;>
      dsimp only at hc ⊢
    · simp
    · have := hh c hc
      simpa [connectedIds, keys_assocUpdate] using this
    · simp at hc

/-- Every reachable state satisfies the inductive invariant. -/
lemma reachable_goodState {st : LobbyState} (h : Reachable st) :
    GoodState st := by
  induction h with
  | init => exact goodState_init
  | connect st sid _ _ ih => exact goodState_connect st sid ih
  | disconnect st sid _ ih => exact goodState_disconnect st sid ih
  | choose st sid data _ hmem ih => exact goodState_choose st sid data hmem ih
  | release st sid data _ _ ih => exact goodState_release st sid data ih

/-- Full dichotomy for `handle_choose_role`: either some precondition
fails, the state is unchanged and a single failure event is answered to the
requester, or all preconditions hold and the success branch runs. -/
lemma choose_cases (st : LobbyState) (sid : ConnId) (data : Option Payload) :
    (¬ ChooseOk st sid (extractRole data) ∧
      ∃ err, handle_choose_role st sid data =
        (st, [(Recipient.requester sid, Event.choose_role_failed err)])) ∨
    (ChooseOk st sid (extractRole data) ∧
      ∃ d, extractRole data = some d ∧
        handle_choose_role st sid data =
          (chooseSuccessState st sid d,
           chooseSuccessEvents (chooseSuccessState st sid d) sid d)) := by
  by_cases hok : ChooseOk st sid (extractRole data)
  · right
    obtain ⟨d, hd⟩ : ∃ d, extractRole data = some d := by
      rcases hok.2.1 with h | h
      · exact ⟨_, h⟩
      · exact ⟨_, h⟩
    exact ⟨hok, d, hd, choose_eq_success st sid data d hd hok⟩
  · left
    refine ⟨hok, ?_⟩
    by_cases h1 : playerCount st < MAX_PLAYERS
    · exact ⟨_, choose_eq_waiting st sid data h1⟩
    by_cases h2 : extractRole data = some "hacker" ∨
        extractRole data = some "defender"
    swap
    · exact ⟨_, choose_eq_invalid st sid data h1 h2⟩
    obtain ⟨d, hd, hd2⟩ : ∃ d, extractRole data = some d ∧
        (d = "hacker" ∨ d = "defender") := by
      rcases h2 with h | h
      · exact ⟨"hacker", h, Or.inl rfl⟩
      · exact ⟨"defender", h, Or.inr rfl⟩
    by_cases h3 : pyTruthy (roleOwnerGet st d) ∧
        ¬ roleOwnerGet st d = some sid
    · exact ⟨_, choose_eq_taken st sid data d hd h1 hd2 h3⟩
    by_cases h4 : (otherOwnedRole st sid d).isSome
    · exact ⟨_, choose_eq_other st sid data d hd h1 hd2 h3 h4⟩
    · exfalso
      apply hok
      have h4' : otherOwnedRole st sid d = none :=
        Option.not_isSome_iff_eq_none.mp h4
      refine ⟨h1, h2, ?_, ?_⟩ <;> rw [hd]
      · simpa using h3
      · simpa using h4'

/-- Python truthiness agrees with `Option.isSome` away from the empty
string. -/
lemma pyTruthy_eq_isSome {o : Option String} (h : ¬ o = some "") :
    pyTruthy o = o.isSome := by
  cases o with
  | none => rfl
  | some s =>
    have hs : ¬ s = "" := fun hss => h (by rw [hss])
    simp [pyTruthy, hs]

lemma otherOwnedRole_isSome_iff (st : LobbyState) (sid : ConnId)
    (d : String) :
    (otherOwnedRole st sid d).isSome = true ↔
      (st.hackerOwner = some sid ∧ ¬ "hacker" = d) ∨
      (st.defenderOwner = some sid ∧ ¬ "defender" = d) := by
  unfold otherOwnedRole
  split_ifs with hA hB
  · simp [hA]
  · simp [hA, hB]
  · simp [hA, hB]

/-- The spec's phrasing of check 4 coincides with the source's
`other_role` loop being fruitful. -/
lemma spec_other_iff (st : LobbyState) (sid : ConnId) (d : String) :
    ((st.hackerOwner = some sid ∧ ¬ (some d : Option String) = some "hacker") ∨
     (st.defenderOwner = some sid ∧
      ¬ (some d : Option String) = some "defender")) ↔
    (otherOwnedRole st sid d).isSome = true := by
  rw [otherOwnedRole_isSome_iff]
  constructor
  · rintro (⟨ha, hne⟩ | ⟨hb, hne⟩)
    · exact Or.inl ⟨ha, fun hc => hne (by rw [hc])⟩
    · exact Or.inr ⟨hb, fun hc => hne (by rw [hc])⟩
  · rintro (⟨ha, hne⟩ | ⟨hb, hne⟩)
    · refine Or.inl ⟨ha, fun hc => ?_⟩
      injection hc with hc
      exact hne hc.symm
    · refine Or.inr ⟨hb, fun hc => ?_⟩
      injection hc with hc
      exact hne hc.symm

/-! ### Reachability of the concrete scenario states -/

lemma reachable_lobbyA : Reachable lobbyA :=
  Reachable.connect initState "A" Reachable.init (by decide)

lemma reachable_lobbyAB : Reachable lobbyAB :=
  Reachable.connect lobbyA "B" reachable_lobbyA (by decide)

lemma reachable_lobbyAhacker : Reachable lobbyAhacker :=
  Reachable.choose lobbyAB "A" (some ⟨some "hacker"⟩) reachable_lobbyAB
    (by decide)

/-! ### The claims -/

/-- C1: in every state reachable from the initial lobby state (no
connections, both roles free) by any sequence of connect, disconnect,
choose-role and release-role operations, each role is owned by at most one
connId, and each connId owns at most one role at a time. -/
theorem C1_role_ownership_exclusive (st : LobbyState) (h : Reachable st) :
    (∀ r c c', roleOwner st r = some c → roleOwner st r = some c' →
      c = c') ∧
    (∀ c r r', roleOwner st r = some c → roleOwner st r' = some c →
      r = r') := by
  obtain ⟨hb, -, -⟩ := reachable_goodState h
  constructor
  · intro r c c' h1 h2
    rw [h1] at h2
    exact Option.some_inj.mp h2
  · intro c r r' h1 h2
    cases r with
    | hacker =>
      cases r' with
      | hacker => rfl
      | defender =>
        exact absurd h2 (hb c h1)
    | defender =>
      cases r' with
      | hacker =>
        exact absurd h1 (hb c h2)
      | defender => rfl

/-- Witness for C1 at the reachable state where `A` and `B` are connected
and `A` owns the hacker role. -/
theorem C1_role_ownership_exclusive_witness :
    roleOwner lobbyAhacker RoleKind.hacker = some "A" ∧
    RoleKind.hacker = RoleKind.hacker :=
  ⟨by decide,
   (C1_role_ownership_exclusive lobbyAhacker reachable_lobbyAhacker).2
     "A" RoleKind.hacker RoleKind.hacker (by decide) (by decide)⟩

/-- C2: whenever any precondition of choose-role fails, the lobby state is
left completely unmodified and the only emitted event is a
`choose_role_failed` answered to the requesting sid — never a broadcast. -/
theorem C2_choose_failure_unmodified (st : LobbyState) (sid : ConnId)
    (data : Option Payload) (h : ¬ ChooseOk st sid (extractRole data)) :
    (handle_choose_role st sid data).1 = st ∧
    ∃ err, (handle_choose_role st sid data).2 =
      [(Recipient.requester sid, Event.choose_role_failed err)] := by
  rcases choose_cases st sid data with ⟨-, err, heq⟩ | ⟨hok, -⟩
  · rw [heq]
    exact ⟨rfl, err, rfl⟩
  · exact absurd hok h

/-- Witness for C2: choosing with an empty payload in the empty lobby. -/
theorem C2_choose_failure_unmodified_witness :
    (handle_choose_role initState "A" none).1 = initState ∧
    (handle_choose_role initState "A" none).2 =
      [(Recipient.requester "A",
        Event.choose_role_failed ChooseErr.waiting_for_players)] :=
  ⟨(C2_choose_failure_unmodified initState "A" none (by decide)).1,
   by decide⟩

/-- C4 as frozen is false on the code: with fewer than two players
connected, choosing the invalid role `"wizard"` fails with
WaitingForPlayers, not InvalidRole, because the player-count check runs
first. -/
theorem C4_counterexample :
    (handle_choose_role initState "A" (some ⟨some "wizard"⟩)).2 =
      [(Recipient.requester "A",
        Event.choose_role_failed ChooseErr.waiting_for_players)] ∧
    ¬ (handle_choose_role initState "A" (some ⟨some "wizard"⟩)).2 =
      [(Recipient.requester "A",
        Event.choose_role_failed ChooseErr.invalid_role)] := by
  constructor
  · decide
  · decide

/-- C4 amended: choosing a role outside the two valid ones fails with
InvalidRole when at least two players are connected; with fewer than two,
the player-count check wins and the call fails with WaitingForPlayers. -/
theorem C4_invalid_role_amended (st : LobbyState) (sid : ConnId)
    (data : Option Payload)
    (hinv : ¬ (extractRole data = some "hacker" ∨
        extractRole data = some "defender")) :
    (handle_choose_role st sid data).2 =
      [(Recipient.requester sid, Event.choose_role_failed
        (if playerCount st < MAX_PLAYERS then ChooseErr.waiting_for_players
         else ChooseErr.invalid_role))] := by
  by_cases h1 : playerCount st < MAX_PLAYERS
  · rw [choose_eq_waiting st sid data h1, if_pos h1]
  · rw [choose_eq_invalid st sid data h1 hinv, if_neg h1]

/-- Witness for the amended C4: `"wizard"` with two players connected
fails with InvalidRole. -/
theorem C4_invalid_role_amended_witness :
    (handle_choose_role lobbyAB "A" (some ⟨some "wizard"⟩)).2 =
      [(Recipient.requester "A",
        Event.choose_role_failed ChooseErr.invalid_role)] := by
  have h := C4_invalid_role_amended lobbyAB "A" (some ⟨some "wizard"⟩)
    (by decide)
  rw [h]
  decide

/-- C10: a missing or malformed payload (no payload at all, or one without
a role entry) makes the extracted role absent; the handler is a total
function on such inputs (it cannot raise), fails with WaitingForPlayers
when fewer than two players are connected and with InvalidRole otherwise,
and leaves the state unchanged. -/
theorem C10_missing_payload_safe (st : LobbyState) (sid : ConnId)
    (data : Option Payload) (h : extractRole data = none) :
    (handle_choose_role st sid data).1 = st ∧
    (handle_choose_role st sid data).2 =
      [(Recipient.requester sid, Event.choose_role_failed
        (if playerCount st < MAX_PLAYERS then ChooseErr.waiting_for_players
         else ChooseErr.invalid_role))] := by
  by_cases h1 : playerCount st < MAX_PLAYERS
  · rw [choose_eq_waiting st sid data h1, if_pos h1]
    exact ⟨rfl, rfl⟩
  · have h2 : ¬ (extractRole data = some "hacker" ∨
        extractRole data = some "defender") := by
      rw [h]
      simp
    rw [choose_eq_invalid st sid data h1 h2, if_neg h1]
    exact ⟨rfl, rfl⟩

/-- Witness for C10: an absent payload with two players connected fails
with InvalidRole and changes nothing. -/
theorem C10_missing_payload_safe_witness :
    (handle_choose_role lobbyAB "A" none).1 = lobbyAB ∧
    (handle_choose_role lobbyAB "A" none).2 =
      [(Recipient.requester "A",
        Event.choose_role_failed ChooseErr.invalid_role)] := by
  have h := C10_missing_payload_safe lobbyAB "A" none (by decide)
  refine ⟨h.1, ?_⟩
  rw [h.2]
  decide

/-- C3: choose-role checks its preconditions in the spec's fixed order
with short-circuit, first failure winning: whenever `specFirstFailure`
(the check order as the spec words it) reports an error, the handler emits
exactly that error to the requester, and when no check fails the handler
emits no failure event at all. Stated for lobby states whose owner entries
are transport-assigned sids (socket ids are never the empty string, the
one value on which Python truthiness and presence disagree). -/
theorem C3_first_failure_wins (st : LobbyState) (sid : ConnId)
    (data : Option Payload)
    (hh : ¬ st.hackerOwner = some "")
    (hdf : ¬ st.defenderOwner = some "") :
    (∀ err, specFirstFailure st sid (extractRole data) = some err →
      (handle_choose_role st sid data).2 =
        [(Recipient.requester sid, Event.choose_role_failed err)]) ∧
    (specFirstFailure st sid (extractRole data) = none →
      ∀ err, (Recipient.requester sid, Event.choose_role_failed err) ∉
        (handle_choose_role st sid data).2) := by
  by_cases h1 : playerCount st < MAX_PLAYERS
  case pos =>
    have h1' : playerCount st < 2 := h1
    have hs : specFirstFailure st sid (extractRole data) =
        some ChooseErr.waiting_for_players := by
      unfold specFirstFailure
      rw [if_pos h1']
    have hc := choose_eq_waiting st sid data h1
    refine ⟨fun err heq => ?_, fun h0 => ?_⟩
    · rw [hs] at heq
      obtain rfl : ChooseErr.waiting_for_players = err :=
        Option.some_inj.mp heq
      rw [hc]
    · rw [hs] at h0
      cases h0
  case neg =>
  have h1' : ¬ playerCount st < 2 := h1
  by_cases h2 : extractRole data = some "hacker" ∨
      extractRole data = some "defender"
  case neg =>
    have hs : specFirstFailure st sid (extractRole data) =
        some ChooseErr.invalid_role := by
      unfold specFirstFailure
      rw [if_neg h1', if_pos h2]
    have hc := choose_eq_invalid st sid data h1 h2
    refine ⟨fun err heq => ?_, fun h0 => ?_⟩
    · rw [hs] at heq
      obtain rfl : ChooseErr.invalid_role = err := Option.some_inj.mp heq
      rw [hc]
    · rw [hs] at h0
      cases h0
  case pos =>
  obtain ⟨d, hd, hd2⟩ : ∃ d, extractRole data = some d ∧
      (d = "hacker" ∨ d = "defender") := by
    rcases h2 with h | h
    · exact ⟨"hacker", h, Or.inl rfl⟩
    · exact ⟨"defender", h, Or.inr rfl⟩
  have hval : (some d : Option String) = some "hacker" ∨
      (some d : Option String) = some "defender" := by
    rcases hd2 with rfl | rfl
    · exact Or.inl rfl
    · exact Or.inr rfl
  have hne : ¬ roleOwnerGet st d = some "" := by
    rcases hd2 with rfl | rfl
    · rw [roleOwnerGet_hacker]
      exact hh
    · rw [roleOwnerGet_defender]
      exact hdf
  by_cases h3 : (roleOwnerGet st d).isSome = true ∧
      ¬ roleOwnerGet st d = some sid
  case pos =>
    have h3' : pyTruthy (roleOwnerGet st d) = true ∧
        ¬ roleOwnerGet st d = some sid := by
      rw [pyTruthy_eq_isSome hne]
      exact h3
    have hc := choose_eq_taken st sid data d hd h1 hd2 h3'
    have hs : specFirstFailure st sid (extractRole data) =
        some ChooseErr.role_taken := by
      unfold specFirstFailure
      rw [hd]
      simp only [Option.getD_some]
      rw [if_neg h1', if_neg (not_not_intro hval), if_pos h3]
    refine ⟨fun err heq => ?_, fun h0 => ?_⟩
    · rw [hs] at heq
      obtain rfl : ChooseErr.role_taken = err := Option.some_inj.mp heq
      rw [hc]
    · rw [hs] at h0
      cases h0
  case neg =>
  have h3' : ¬ (pyTruthy (roleOwnerGet st d) = true ∧
      ¬ roleOwnerGet st d = some sid) := by
    rw [pyTruthy_eq_isSome hne]
    exact h3
  by_cases h4 : (otherOwnedRole st sid d).isSome = true
  case pos =>
    have hspec4 := (spec_other_iff st sid d).mpr h4
    have hc := choose_eq_other st sid data d hd h1 hd2 h3' h4
    have hs : specFirstFailure st sid (extractRole data) =
        some ChooseErr.already_owns_other_role := by
      unfold specFirstFailure
      rw [hd]
      simp only [Option.getD_some]
      rw [if_neg h1', if_neg (not_not_intro hval), if_neg h3, if_pos hspec4]
    refine ⟨fun err heq => ?_, fun h0 => ?_⟩
    · rw [hs] at heq
      obtain rfl : ChooseErr.already_owns_other_role = err :=
        Option.some_inj.mp heq
      rw [hc]
    · rw [hs] at h0
      cases h0
  case neg =>
    have h4' : otherOwnedRole st sid d = none :=
      Option.not_isSome_iff_eq_none.mp h4
    have hok : ChooseOk st sid (extractRole data) := by
      refine ⟨h1, h2, ?_, ?_⟩ <;> rw [hd]
      · simpa using h3'
      · simpa using h4'
    have hc := choose_eq_success st sid data d hd hok
    have hspec4 : ¬ ((st.hackerOwner = some sid ∧
        ¬ (some d : Option String) = some "hacker") ∨
        (st.defenderOwner = some sid ∧
         ¬ (some d : Option String) = some "defender")) :=
      fun hcon => h4 ((spec_other_iff st sid d).mp hcon)
    have hs : specFirstFailure st sid (extractRole data) = none := by
      unfold specFirstFailure
      rw [hd]
      simp only [Option.getD_some]
      rw [if_neg h1', if_neg (not_not_intro hval), if_neg h3, if_neg hspec4]
    refine ⟨fun err heq => ?_, fun h0 err hmem => ?_⟩
    · rw [hs] at heq
      cases heq
    · have hmem' : (Recipient.requester sid, Event.choose_role_failed err) ∈
          chooseSuccessEvents (chooseSuccessState st sid d) sid d := by
        rw [hc] at hmem
        exact hmem
      unfold chooseSuccessEvents at hmem'
      split at hmem' <;> simp [broadcast_roles] at hmem'

/-- Witness for C3: with two players connected and an invalid role, the
first failing check in the spec's order is the role validation, and the
handler reports exactly InvalidRole. -/
theorem C3_first_failure_wins_witness :
    (handle_choose_role lobbyAB "B" (some ⟨some "wizard"⟩)).2 =
      [(Recipient.requester "B",
        Event.choose_role_failed ChooseErr.invalid_role)] :=
  (C3_first_failure_wins lobbyAB "B" (some ⟨some "wizard"⟩)
    (by decide) (by decide)).1 ChooseErr.invalid_role (by decide)

/-- C5: choose-role is idempotent for the current owner. If a choose-role
call by sid succeeds (all preconditions hold), repeating the very same call
on the resulting state returns the identical state-and-events result — in
particular it succeeds again, re-emitting the success event — and the
state after the second call equals the state after the first. -/
theorem C5_choose_idempotent (st : LobbyState) (sid : ConnId)
    (data : Option Payload) (d : String)
    (hd : extractRole data = some d)
    (hok : ChooseOk st sid (extractRole data)) :
    handle_choose_role (handle_choose_role st sid data).1 sid data =
      handle_choose_role st sid data ∧
    (Recipient.requester sid, Event.choose_role_success d) ∈
      (handle_choose_role (handle_choose_role st sid data).1 sid data).2 := by
  have hok' := hok
  obtain ⟨h1, h2, h3, h4⟩ := hok'
  rw [hd] at h2 h3 h4
  simp only [Option.getD_some] at h3 h4
  have hd2 : d = "hacker" ∨ d = "defender" := by simpa using h2
  obtain ⟨hO1, hO2⟩ := (otherOwnedRole_eq_none_iff st sid d).mp h4
  rcases hd2 with rfl | rfl
  · have hdef : ¬ st.defenderOwner = some sid :=
      fun hc => hO2 ⟨hc, by decide⟩
    have hS := chooseSuccessState_hacker st sid
    have hokS : ChooseOk (chooseSuccessState st sid "hacker") sid
        (extractRole data) := by
      refine ⟨?_, by rw [hd]; exact h2, ?_, ?_⟩
      · rw [hS]
        simpa [playerCount, length_assocUpdate] using h1
      · rw [hd]
        simp only [Option.getD_some]
        rintro ⟨-, hne⟩
        exact hne (by rw [hS, roleOwnerGet_hacker])
      · rw [hd]
        simp only [Option.getD_some]
        rw [otherOwnedRole_eq_none_iff]
        refine ⟨fun hc => hc.2 rfl, fun hc => hdef ?_⟩
        rw [hS] at hc
        exact hc.1
    have hSS : chooseSuccessState (chooseSuccessState st sid "hacker") sid
        "hacker" = chooseSuccessState st sid "hacker" := by
      rw [chooseSuccessState_hacker (chooseSuccessState st sid "hacker") sid,
        hS]
      simp [assocUpdate_idem]
    rw [choose_eq_success st sid data "hacker" hd hok,
      choose_eq_success (chooseSuccessState st sid "hacker") sid data
        "hacker" hd hokS, hSS]
    exact ⟨rfl, by simp [chooseSuccessEvents]⟩
  · have hhk : ¬ st.hackerOwner = some sid :=
      fun hc => hO1 ⟨hc, by decide⟩
    have hS := chooseSuccessState_defender st sid
    have hokS : ChooseOk (chooseSuccessState st sid "defender") sid
        (extractRole data) := by
      refine ⟨?_, by rw [hd]; exact h2, ?_, ?_⟩
      · rw [hS]
        simpa [playerCount, length_assocUpdate] using h1
      · rw [hd]
        simp only [Option.getD_some]
        rintro ⟨-, hne⟩
        exact hne (by rw [hS, roleOwnerGet_defender])
      · rw [hd]
        simp only [Option.getD_some]
        rw [otherOwnedRole_eq_none_iff]
        refine ⟨fun hc => hhk ?_, fun hc => hc.2 rfl⟩
        rw [hS] at hc
        exact hc.1
    have hSS : chooseSuccessState (chooseSuccessState st sid "defender") sid
        "defender" = chooseSuccessState st sid "defender" := by
      rw [chooseSuccessState_defender (chooseSuccessState st sid "defender")
        sid, hS]
      simp [assocUpdate_idem]
    rw [choose_eq_success st sid data "defender" hd hok,
      choose_eq_success (chooseSuccessState st sid "defender") sid data
        "defender" hd hokS, hSS]
    exact ⟨rfl, by simp [chooseSuccessEvents]⟩

/-- Witness for C5: `A` re-claims the hacker role it already owns; the
second call returns exactly the first call's result. -/
theorem C5_choose_idempotent_witness :
    handle_choose_role lobbyAhacker "A" (some ⟨some "hacker"⟩) =
      handle_choose_role lobbyAB "A" (some ⟨some "hacker"⟩) :=
  (C5_choose_idempotent lobbyAB "A" (some ⟨some "hacker"⟩) "hacker"
    (by decide) (by decide)).1

/-- C6: disconnect clears every role owned by the leaving sid back to free
and removes the sid from the connections map; owner entries of other sids
are untouched; on a reachable state where the sid is absent it is an exact
no-op; and in the concrete scenario connect(A), connect(B), A claims
hacker, A disconnects, the roles snapshot is all-free and one player
remains. -/
theorem C6_disconnect_cleanup (st : LobbyState) (sid : ConnId) :
    (st.hackerOwner = some sid →
      (handle_disconnect st sid).1.hackerOwner = none) ∧
    (st.defenderOwner = some sid →
      (handle_disconnect st sid).1.defenderOwner = none) ∧
    (¬ st.hackerOwner = some sid →
      (handle_disconnect st sid).1.hackerOwner = st.hackerOwner) ∧
    (¬ st.defenderOwner = some sid →
      (handle_disconnect st sid).1.defenderOwner = st.defenderOwner) ∧
    sid ∉ connectedIds (handle_disconnect st sid).1 ∧
    (Reachable st → sid ∉ connectedIds st →
      (handle_disconnect st sid).1 = st) ∧
    rolesSnapshot (handle_disconnect lobbyAhacker "A").1 = (false, false) ∧
    playerCount (handle_disconnect lobbyAhacker "A").1 = 1 := by
  refine ⟨fun h => ?_, fun h => ?_, fun h => ?_, fun h => ?_, ?_, ?_,
    by decide, by decide⟩
  · rw [disconnect_fst]
    dsimp only
    rw [if_pos h]
  · rw [disconnect_fst]
    dsimp only
    rw [if_pos h]
  · rw [disconnect_fst]
    dsimp only
    rw [if_neg h]
  · rw [disconnect_fst]
    dsimp only
    rw [if_neg h]
  · rw [disconnect_fst]
    simp only [connectedIds]
    exact not_mem_keys_assocPop st.connected sid
  · intro hr hn
    obtain ⟨-, hh', hdf'⟩ := reachable_goodState hr
    have h1 : ¬ st.hackerOwner = some sid := fun hc => hn (hh' sid hc)
    have h2 : ¬ st.defenderOwner = some sid := fun hc => hn (hdf' sid hc)
    simp only [connectedIds] at hn
    rw [disconnect_fst]
    rw [if_neg h1, if_neg h2, assocPop_of_not_mem hn]

/-- Witness for C6: disconnecting a never-connected sid from the reachable
two-player lobby is an exact no-op. -/
theorem C6_disconnect_cleanup_witness :
    (handle_disconnect lobbyAB "C").1 = lobbyAB :=
  (C6_disconnect_cleanup lobbyAB "C").2.2.2.2.2.1 reachable_lobbyAB
    (by decide)

/-- C7: for every reachable lobby state and every sid not currently
connected, connecting that sid and immediately disconnecting it restores
both the player count and the roles snapshot to their previous values. -/
theorem C7_connect_disconnect_roundtrip (st : LobbyState) (sid : ConnId)
    (h : Reachable st) (hn : sid ∉ connectedIds st) :
    playerCount (handle_disconnect (handle_connect st sid).1 sid).1 =
      playerCount st ∧
    rolesSnapshot (handle_disconnect (handle_connect st sid).1 sid).1 =
      rolesSnapshot st := by
  obtain ⟨-, hh', hdf'⟩ := reachable_goodState h
  have h1 : ¬ st.hackerOwner = some sid := fun hc => hn (hh' sid hc)
  have h2 : ¬ st.defenderOwner = some sid := fun hc => hn (hdf' sid hc)
  simp only [connectedIds] at hn
  have hpop : assocPop [(sid, (none : Option String))] sid = [] := by
    simp [assocPop]
  have hstate : (handle_disconnect (handle_connect st sid).1 sid).1 = st := by
    rw [connect_fst, disconnect_fst]
    dsimp only
    rw [if_neg h1, if_neg h2, assocSet_of_not_mem none hn, assocPop_append,
      assocPop_of_not_mem hn, hpop, List.append_nil]
  rw [hstate]
  exact ⟨rfl, rfl⟩

/-- Witness for C7: connect then disconnect of a fresh sid `C` on the
two-player lobby leaves count 2 and both roles free. -/
theorem C7_connect_disconnect_roundtrip_witness :
    playerCount (handle_disconnect (handle_connect lobbyAB "C").1 "C").1 =
      2 ∧
    rolesSnapshot
      (handle_disconnect (handle_connect lobbyAB "C").1 "C").1 =
      (false, false) := by
  have h := C7_connect_disconnect_roundtrip lobbyAB "C" reachable_lobbyAB
    (by decide)
  refine ⟨?_, ?_⟩
  · rw [h.1]
    decide
  · rw [h.2]
    decide

/-- C8: release-role mutates nothing and emits nothing unless the payload
names a valid role currently owned by the requesting sid; on success it
clears that role's owner, clears the connection's stored role, answers the
requester with `role_released` and broadcasts the updated roles snapshot. -/
theorem C8_release_role (st : LobbyState) (sid : ConnId)
    (data : Option Payload) :
    (¬ ReleaseOk st sid (extractRole data) →
      handle_release_role st sid data = (st, [])) ∧
    (∀ r, extractRole data = some r →
      ReleaseOk st sid (extractRole data) →
      roleOwnerGet (handle_release_role st sid data).1 r = none ∧
      (∀ r', (r' = "hacker" ∨ r' = "defender") → ¬ r' = r →
        roleOwnerGet (handle_release_role st sid data).1 r' =
          roleOwnerGet st r') ∧
      (sid ∈ connectedIds st →
        assocGet (handle_release_role st sid data).1.connected sid =
          some none) ∧
      (handle_release_role st sid data).2 =
        [(Recipient.requester sid, Event.role_released r),
         (Recipient.all, Event.roles_update
           (rolesSnapshot (handle_release_role st sid data).1).1
           (rolesSnapshot (handle_release_role st sid data).1).2)]) := by
  refine ⟨release_eq_noop st sid data, ?_⟩
  intro r hr hok
  obtain ⟨hv, ho⟩ := hok
  rw [hr] at hv ho
  simp only [Option.getD_some] at ho
  have hv' : r = "hacker" ∨ r = "defender" := by simpa using hv
  have hc := release_eq_success st sid data r hr hv' ho
  rcases hv' with rfl | rfl
  · rw [hc, roleOwnerSet_hacker]
    refine ⟨?_, ?_, ?_, ?_⟩
    · rw [roleOwnerGet_hacker]
    · rintro r' (rfl | rfl) hne
      · exact absurd rfl hne
      · rw [roleOwnerGet_defender, roleOwnerGet_defender]
    · intro hmem
      simp only [connectedIds] at hmem
      exact assocGet_assocUpdate_self none hmem
    · rfl
  · rw [hc, roleOwnerSet_defender]
    refine ⟨?_, ?_, ?_, ?_⟩
    · rw [roleOwnerGet_defender]
    · rintro r' (rfl | rfl) hne
      · rw [roleOwnerGet_hacker, roleOwnerGet_hacker]
      · exact absurd rfl hne
    · intro hmem
      simp only [connectedIds] at hmem
      exact assocGet_assocUpdate_self none hmem
    · rfl

/-- Witness for C8: `A` owns hacker and asks to release defender — a
silent no-op, state unchanged, no event at all. -/
theorem C8_release_role_witness :
    handle_release_role lobbyAhacker "A" (some ⟨some "defender"⟩) =
      (lobbyAhacker, []) :=
  (C8_release_role lobbyAhacker "A" (some ⟨some "defender"⟩)).1 (by decide)

/-- C9: on every successful choose-role call the success event to the
requester comes first, the roles-update broadcast second, and a
`roles_ready` broadcast is appended last exactly when both roles are owned
after the update (also on a re-claim, which is a successful call). -/
theorem C9_success_event_order (st : LobbyState) (sid : ConnId)
    (data : Option Payload) (d : String)
    (hd : extractRole data = some d)
    (hok : ChooseOk st sid (extractRole data)) :
    (handle_choose_role st sid data).2 =
      [(Recipient.requester sid, Event.choose_role_success d),
       (Recipient.all, Event.roles_update
         (rolesSnapshot (handle_choose_role st sid data).1).1
         (rolesSnapshot (handle_choose_role st sid data).1).2)] ++
      (if all_roles_taken (handle_choose_role st sid data).1 then
        [(Recipient.all, Event.roles_ready true)] else []) ∧
    (all_roles_taken (handle_choose_role st sid data).1 = true ↔
      ((handle_choose_role st sid data).1.hackerOwner.isSome = true ∧
       (handle_choose_role st sid data).1.defenderOwner.isSome = true)) := by
  rw [choose_eq_success st sid data d hd hok]
  constructor
  · rfl
  · simp [all_roles_taken]

/-- Witness for C9: `B` claims defender when `A` already holds hacker —
success, then roles-update, then roles-ready since both roles are owned. -/
theorem C9_success_event_order_witness :
    (handle_choose_role lobbyAhacker "B" (some ⟨some "defender"⟩)).2 =
      [(Recipient.requester "B", Event.choose_role_success "defender"),
       (Recipient.all, Event.roles_update true true),
       (Recipient.all, Event.roles_ready true)] := by
  have h := C9_success_event_order lobbyAhacker "B"
    (some ⟨some "defender"⟩) "defender" (by decide) (by decide)
  rw [h.1]
  decide

end RoleLobby
